import Mathlib

/-!
Shallow embedding of the Smart-Energy-Management Streamlit application
(`src/app.py`): artifact loading (`load_toolkit`, lines 48-62), the
inference pipeline (scale → predict → inverse-scale, lines 144-157),
the outcome extraction (`pred_original[0][0..2]`, lines 155-157), the
metric/progress-bar rendering of the results section (lines 160-214),
the diagnostic rule engine (`suggestions`, lines 220-242) and the
surrounding `predict_btn` exception handler (lines 142-246).

Numeric values are embedded as `Val`, rationals extended with `nan`,
`inf` and `negInf` elements whose arithmetic and comparison behaviour
follows IEEE floats as Python exposes them: arithmetic with `nan`
yields `nan`, infinities absorb finite operands with IEEE sign rules,
and every ordered comparison involving `nan` is `False`.
-/

/-- A Python float as used by the app: an ordinary finite number
(modelled as a rational), `nan`, or a signed infinity.  Arithmetic
propagates `nan` and handles infinities by the IEEE rules; comparisons
with `nan` are false, as in IEEE/Python.  (No signed zero: `x / inf`
is `num 0`.) -/
inductive Val where
  | num (q : ℚ)
  | nan
  | inf
  | negInf
deriving DecidableEq

namespace Val

/-- Addition: `nan` propagates; `inf + (-inf)` is `nan`; an infinity
absorbs any other operand. -/
def add : Val → Val → Val
  | num a, num b => num (a + b)
  | nan, _ => nan
  | _, nan => nan
  | inf, negInf => nan
  | negInf, inf => nan
  | inf, _ => inf
  | _, inf => inf
  | negInf, _ => negInf
  | _, negInf => negInf

/-- Subtraction: `nan` propagates; `inf - inf` and `(-inf) - (-inf)`
are `nan`; otherwise an infinity dominates with the IEEE sign. -/
def sub : Val → Val → Val
  | num a, num b => num (a - b)
  | nan, _ => nan
  | _, nan => nan
  | inf, inf => nan
  | negInf, negInf => nan
  | inf, _ => inf
  | _, inf => negInf
  | negInf, _ => negInf
  | _, negInf => inf

/-- Multiplication: `nan` propagates; `inf * 0` is `nan`; signs follow
the IEEE rules. -/
def mul : Val → Val → Val
  | num a, num b => num (a * b)
  | nan, _ => nan
  | _, nan => nan
  | inf, inf => inf
  | inf, negInf => negInf
  | negInf, inf => negInf
  | negInf, negInf => inf
  | inf, num b => if 0 < b then inf else if b < 0 then negInf else nan
  | num a, inf => if 0 < a then inf else if a < 0 then negInf else nan
  | negInf, num b => if 0 < b then negInf else if b < 0 then inf else nan
  | num a, negInf => if 0 < a then negInf else if a < 0 then inf else nan

/-- Division: `nan` propagates; `±inf / ±inf` is `nan`; a finite value
over an infinity is zero; an infinity over a finite value keeps the
IEEE sign (the numpy values in the app divide infinities only by
positive constants).  For two finite operands this is rational
division; the divisors occurring in the app (fitted scales, 5, 20,
300) are nonzero, so the rational semantics agrees with the floats. -/
def div : Val → Val → Val
  | num a, num b => num (a / b)
  | nan, _ => nan
  | _, nan => nan
  | inf, inf => nan
  | inf, negInf => nan
  | negInf, inf => nan
  | negInf, negInf => nan
  | num _, inf => num 0
  | num _, negInf => num 0
  | inf, num b => if b < 0 then negInf else inf
  | negInf, num b => if b < 0 then inf else negInf

/-- Python `x > y` on floats: false whenever either side is `nan`;
`inf` is above and `negInf` below every non-`nan` value. -/
def gtb : Val → Val → Bool
  | num a, num b => decide (b < a)
  | inf, num _ => true
  | inf, negInf => true
  | num _, negInf => true
  | _, _ => false

/-- Python `x < y` on floats: false whenever either side is `nan`. -/
def ltb : Val → Val → Bool
  | num a, num b => decide (a < b)
  | num _, inf => true
  | negInf, num _ => true
  | negInf, inf => true
  | _, _ => false

/-- Python `x <= y` on floats: false whenever either side is `nan`. -/
def leb : Val → Val → Bool
  | num a, num b => decide (a ≤ b)
  | num _, inf => true
  | negInf, num _ => true
  | negInf, inf => true
  | negInf, negInf => true
  | inf, inf => true
  | _, _ => false

/-- Python's two-argument `max(a, b)`: returns `b` exactly when
`b > a`, else the first argument — so `max(nan, x) = nan` while
`max(x, nan) = x`, as in CPython. -/
def pymax (a b : Val) : Val := if b.gtb a then b else a

/-- Python's two-argument `min(a, b)`: returns `b` exactly when
`b < a`, else the first argument. -/
def pymin (a b : Val) : Val := if b.ltb a then b else a

end Val

/-- Exceptions that the `try` block of lines 142-243 can raise:
sklearn's `ValueError` on a feature-count mismatch (carrying
got/expected widths), Python's `IndexError` from positional
extraction, and Streamlit's `StreamlitAPIException` raised by
`st.progress` when its argument fails the `0.0 <= value <= 1.0`
range check (which `nan` and negative values fail). -/
inductive PyExc where
  | valueError (got expected : ℕ)
  | indexError
  | streamlitAPIException
deriving DecidableEq

/-- A fitted scaler (`scaler_X.pkl` / `scaler_y.pkl`): a per-feature
affine transform given by fitted `mean_` and `scale_` vectors, as in
sklearn's `StandardScaler`. -/
structure Scaler where
  mean_ : List Val
  scale_ : List Val

/-- The feature width the scaler was fitted on. -/
def Scaler.nFeatures (s : Scaler) : ℕ := s.mean_.length

/-- `scaler.transform(row)`: sklearn validates the feature count against
the fitted width and raises `ValueError` on mismatch, otherwise applies
`(x - mean_) / scale_` per feature. -/
def Scaler.transform (s : Scaler) (xs : List Val) : Except PyExc (List Val) :=
  if xs.length = s.nFeatures then
    .ok ((xs.zip (s.mean_.zip s.scale_)).map fun p => (p.1.sub p.2.1).div p.2.2)
  else
    .error (.valueError xs.length s.nFeatures)

/-- `scaler.inverse_transform(row)`: width-validated inverse affine map
`y * scale_ + mean_` per feature. -/
def Scaler.inverse_transform (s : Scaler) (ys : List Val) : Except PyExc (List Val) :=
  if ys.length = s.nFeatures then
    .ok ((ys.zip (s.mean_.zip s.scale_)).map fun p => (p.1.mul p.2.2).add p.2.1)
  else
    .error (.valueError ys.length s.nFeatures)

/-- The frozen MLP regressor (`best_model_mlp.pkl`): a deterministic
function on the scaled feature row, with the fitted input width `nIn`
validated by `predict` as sklearn does. -/
structure MLPModel where
  nIn : ℕ
  f : List Val → List Val

/-- `model.predict(row)`: validates the input width, then applies the
frozen network function. -/
def MLPModel.predict (m : MLPModel) (xs : List Val) : Except PyExc (List Val) :=
  if xs.length = m.nIn then .ok (m.f xs) else .error (.valueError xs.length m.nIn)

/-- Lines 144-150 of `app.py`: `input_scaled = scaler_x.transform(input_df)`;
`pred_scaled = model.predict(input_scaled)`;
`pred_original = scaler_y.inverse_transform(pred_scaled)`. -/
def predictPipeline (m : MLPModel) (sx sy : Scaler) (input_df : List Val) :
    Except PyExc (List Val) :=
  match sx.transform input_df with
  | .error e => .error e
  | .ok input_scaled =>
    match m.predict input_scaled with
    | .error e => .error e
    | .ok pred_scaled =>
      match sy.inverse_transform pred_scaled with
      | .error e => .error e
      | .ok pred_original => .ok pred_original

/-- Lines 155-157 of `app.py`: `utci_val = pred_original[0][0]`,
`std_utci_val = pred_original[0][1]`, `atec_val = pred_original[0][2]`;
raises `IndexError` when the (single-row) prediction has fewer than
three columns. -/
def extractOutcomes : List Val → Except PyExc (Val × Val × Val)
  | u :: s :: a :: _ => .ok (u, s, a)
  | _ => .error .indexError

/-- The `input_data` dict of lines 114-129, in its exact insertion
order (which is the column order of `input_df`). -/
structure InputData where
  FAR : Val
  BCR : Val
  OSR : Val
  AS : Val
  AH : Val
  OR : Val
  SD : Val
  SVF : Val
  AAR : Val
  xAAR : Val
  yAAR : Val
  BESA : Val
  SF : Val
  APR : Val
deriving DecidableEq

/-- The single row of `input_df` (line 132): the dict's values in
insertion order. -/
def InputData.features (d : InputData) : List Val :=
  [d.FAR, d.BCR, d.OSR, d.AS, d.AH, d.OR, d.SD, d.SVF, d.AAR, d.xAAR,
   d.yAAR, d.BESA, d.SF, d.APR]

/-- The sidebar sliders' default values (lines 73-92). -/
def defaultInput : InputData :=
  { FAR := .num (5/2), BCR := .num (2/5), OSR := .num (3/10)
    AS := .num (3/2), AH := .num 30, OR := .num 45, SD := .num 10
    SVF := .num (1/2), AAR := .num 1, xAAR := .num 1, yAAR := .num 1
    BESA := .num 1000, SF := .num (1/2), APR := .num 10 }

/-- The four advisory messages that the rule block of lines 222-236 can
append to `suggestions`, identified by their rule. -/
inductive Advisory where
  | heatLowSVF
  | heatHighSVF
  | energyDensity
  | coverageUneven
deriving DecidableEq

/-- Lines 220-236 of `app.py`: the `suggestions` list built by the four
threshold rules, in source order:
rule 1 `utci_val > 30 and input_data['SVF'] < 0.3`,
rule 2 `utci_val > 30 and input_data['SVF'] > 0.7`,
rule 3 `atec_val > 140 and input_data['FAR'] > 4.0`,
rule 4 `input_data['BCR'] > 0.6 and std_utci_val > 2.0`. -/
def suggestions (utci_val std_utci_val atec_val : Val) (d : InputData) :
    List Advisory :=
  (if utci_val.gtb (.num 30) && d.SVF.ltb (.num (3/10)) then [.heatLowSVF] else []) ++
  (if utci_val.gtb (.num 30) && d.SVF.gtb (.num (7/10)) then [.heatHighSVF] else []) ++
  (if atec_val.gtb (.num 140) && d.FAR.gtb (.num 4) then [.energyDensity] else []) ++
  (if d.BCR.gtb (.num (6/10)) && std_utci_val.gtb (.num 2) then [.coverageUneven] else [])

/-- What the analysis section renders: the single `st.info` "balanced"
success message, or one `st.warning` per advisory. -/
inductive AnalysisMsg where
  | balancedInfo
  | warn (a : Advisory)
deriving DecidableEq

/-- Lines 238-242 of `app.py`: `if not suggestions: st.info(...)` else
one `st.warning` per suggestion. -/
def render_analysis (advs : List Advisory) : List AnalysisMsg :=
  if advs.isEmpty then [.balancedInfo] else advs.map .warn

/-- The aveUTCI status message chosen at lines 168-176: `> 32` high
heat stress, `< 20` cold stress, otherwise comfortable (`nan` fails
both comparisons and lands on comfortable). -/
inductive StatusMsg where
  | highHeat
  | coldStress
  | comfortable
deriving DecidableEq

/-- The ATEC delta message of lines 199-204: `> 150` high consumption,
otherwise energy efficient. -/
inductive EnergyMsg where
  | highConsumption
  | energyEfficient
deriving DecidableEq

/-- One UI element displayed by a `predict_btn` run: the three
`st.metric` widgets and three `st.progress` bars of lines 160-214
(value-free headers and dividers are omitted), the analysis messages
of lines 238-242, and the `st.error` of the `except` block. -/
inductive Element where
  | metricUTCI (v : Val) (s : StatusMsg)
  | progressBar (v : Val)
  | metricStd (v : Val)
  | metricATEC (v : Val) (e : EnergyMsg)
  | analysis (m : AnalysisMsg)
  | errorMsg (e : PyExc)
deriving DecidableEq

/-- `st.progress`'s float validation: `0.0 <= value <= 1.0`, which
`nan` (every comparison false) and negative or oversized values fail,
raising `StreamlitAPIException`. -/
def valid01 (v : Val) : Bool := (Val.num 0).leb v && v.leb (Val.num 1)

/-- Lines 160-242 of `app.py`, the body of the `try` block after the
outcomes are extracted: render the aveUTCI metric and its progress bar
`min(max((utci - 20) / 20, 0.0), 1.0)` (line 185), the stdUTCI metric
and `min(std / 5.0, 1.0)` (line 195), the ATEC metric and
`min(atec / 300, 1.0)` (line 214), then the rule block and its
analysis messages.  Each `st.progress` call validates its argument and
raises `StreamlitAPIException` out of the block when the check fails;
the result is the list of elements displayed before any raise,
together with the raised exception if there was one. -/
def render_block (u s a : Val) (d : InputData) : List Element × Option PyExc :=
  let status := if u.gtb (.num 32) then StatusMsg.highHeat
    else if u.ltb (.num 20) then StatusMsg.coldStress else StatusMsg.comfortable
  let p1 := Val.pymin (Val.pymax ((u.sub (.num 20)).div (.num 20)) (.num 0)) (.num 1)
  if valid01 p1 then
    let p2 := Val.pymin (s.div (.num 5)) (.num 1)
    if valid01 p2 then
      let energy := if a.gtb (.num 150) then EnergyMsg.highConsumption
        else EnergyMsg.energyEfficient
      let p3 := Val.pymin (a.div (.num 300)) (.num 1)
      if valid01 p3 then
        ([.metricUTCI u status, .progressBar p1, .metricStd s, .progressBar p2,
          .metricATEC a energy, .progressBar p3] ++
            (render_analysis (suggestions u s a d)).map .analysis, none)
      else
        ([.metricUTCI u status, .progressBar p1, .metricStd s, .progressBar p2,
          .metricATEC a energy], some .streamlitAPIException)
    else
      ([.metricUTCI u status, .progressBar p1, .metricStd s], some .streamlitAPIException)
  else
    ([.metricUTCI u status], some .streamlitAPIException)

/-- Lines 142-246 of `app.py`: the `try` block runs the pipeline,
extracts the three outcomes positionally and renders the results
section; any exception raised anywhere in the block is caught by the
`except` at line 244 and shown via `st.error` after whatever elements
were already displayed. -/
def run_prediction (m : MLPModel) (sx sy : Scaler) (d : InputData) : List Element :=
  match predictPipeline m sx sy d.features with
  | .error e => [.errorMsg e]
  | .ok row =>
    match extractOutcomes row with
    | .error e => [.errorMsg e]
    | .ok (u, s, a) =>
      match render_block u s a d with
      | (els, none) => els
      | (els, some e) => els ++ [.errorMsg e]

/-- Whether the `except` branch's `st.error` appears among the
displayed elements of a run. -/
def containsError (els : List Element) : Bool :=
  els.any fun e =>
    match e with
    | .errorMsg _ => true
    | _ => false

/-- Failure modes when loading a pickled artifact: the file is absent
(`FileNotFoundError`) or some other exception (corrupt blob, etc.). -/
inductive LoadExc where
  | fileNotFound
  | other (msg : String)
deriving DecidableEq

/-- The three artifact file names of lines 55-57. -/
def modelFile : String := "best_model_mlp.pkl"

/-- `scaler_X.pkl`. -/
def scalerXFile : String := "scaler_X.pkl"

/-- `scaler_y.pkl`. -/
def scalerYFile : String := "scaler_y.pkl"

/-- Lines 49-60 of `app.py` (`load_toolkit` without the cache
decorator): load the three artifacts in order; a `FileNotFoundError`
anywhere is caught and turned into the `(None, None, None)` sentinel;
any other exception propagates.  The storage is a map from file name to
load result. -/
def load_toolkit {α : Type} (fs : String → Except LoadExc α) :
    Except LoadExc (Option α × Option α × Option α) :=
  match fs modelFile with
  | .error .fileNotFound => .ok (none, none, none)
  | .error e => .error e
  | .ok m =>
    match fs scalerXFile with
    | .error .fileNotFound => .ok (none, none, none)
    | .error e => .error e
    | .ok sx =>
      match fs scalerYFile with
      | .error .fileNotFound => .ok (none, none, none)
      | .error e => .error e
      | .ok sy => .ok (some m, some sx, some sy)

/-- Line 48's `@st.cache_resource` applied to `load_toolkit`: the first
successful return value (exceptions excluded — Streamlit does not cache
raised exceptions) is memoized and returned on every later call without
re-reading storage.  Takes and returns the cache cell. -/
def cached_load_toolkit {α : Type}
    (cache : Option (Option α × Option α × Option α))
    (fs : String → Except LoadExc α) :
    Except LoadExc (Option α × Option α × Option α) ×
      Option (Option α × Option α × Option α) :=
  match cache with
  | some r => (.ok r, some r)
  | none =>
    match load_toolkit fs with
    | .ok r => (.ok r, some r)
    | .error e => (.error e, none)

/-- A 14-feature identity-like input scaler (zero means, unit scales)
used as a concrete artifact in witnesses. -/
def sx14 : Scaler :=
  { mean_ := [.num 0, .num 0, .num 0, .num 0, .num 0, .num 0, .num 0,
              .num 0, .num 0, .num 0, .num 0, .num 0, .num 0, .num 0]
    scale_ := [.num 1, .num 1, .num 1, .num 1, .num 1, .num 1, .num 1,
               .num 1, .num 1, .num 1, .num 1, .num 1, .num 1, .num 1] }

/-- A 3-output identity-like output scaler used in witnesses. -/
def sy3 : Scaler :=
  { mean_ := [.num 0, .num 0, .num 0], scale_ := [.num 1, .num 1, .num 1] }

/-- A concrete frozen model used in witnesses: 14 inputs, constant
prediction `[31, 2, 120]`. -/
def m0 : MLPModel := { nIn := 14, f := fun _ => [.num 31, .num 2, .num 120] }

/-- A concrete model whose numeric computation produces `nan` outputs,
used to exercise the NaN path of the handler. -/
def nanModel : MLPModel := { nIn := 14, f := fun _ => [.nan, .nan, .nan] }

/-- A concrete model whose ATEC output overflows to `+inf`, used to
exercise the Inf path of the handler. -/
def infModel : MLPModel := { nIn := 14, f := fun _ => [.num 31, .num 2, .inf] }

/-- A 13-entry feature row, one short of the fitted width of `sx14`. -/
def x13 : List Val :=
  [.num 0, .num 0, .num 0, .num 0, .num 0, .num 0, .num 0,
   .num 0, .num 0, .num 0, .num 0, .num 0, .num 0]

/-- Storage in which every artifact file is absent. -/
def fsMissing : String → Except LoadExc ℕ := fun _ => .error .fileNotFound

/-- Storage in which every artifact file is present (loading to `7`). -/
def fsPresent : String → Except LoadExc ℕ := fun _ => .ok 7

/-- Storage in which only the model file is present. -/
def fsOnlyModel : String → Except LoadExc ℕ :=
  fun n => if n = modelFile then .ok 1 else .error .fileNotFound

/-- Storage in which the model blob is corrupt (raises a non-`FileNotFoundError`
exception) and the scaler files are absent. -/
def fsCorruptModel : String → Except LoadExc ℕ :=
  fun n => if n = modelFile then .error (.other "corrupt") else .error .fileNotFound

/-- C1 (counterexample): on the outcome triple `(32.7, 3.0, 114.0)` with the
default raw parameters (SVF = 0.5, FAR = 2.5, BCR = 0.4), the rule engine of
`app.py` produces zero advisories and shows the "balanced" success message —
not the two advisories and suppressed success message the claim requires.
The thresholds `heat > 32.6` / `energy > 113.0` appear nowhere in the code;
the code's rules are `utci > 30 ∧ SVF < 0.3`, `utci > 30 ∧ SVF > 0.7`,
`atec > 140 ∧ FAR > 4.0`, `BCR > 0.6 ∧ stdUTCI > 2.0`. -/
theorem C1_counterexample :
    suggestions (.num (327/10)) (.num 3) (.num 114) defaultInput = [] ∧
      render_analysis (suggestions (.num (327/10)) (.num 3) (.num 114) defaultInput) =
        [.balancedInfo] := by
  constructor <;> norm_num [suggestions, render_analysis, Val.gtb, Val.ltb, defaultInput]

/-- C1 (amended): on the outcome triple `(32.7, 3.0, 114.0)` the engine never
emits an energy-intensity advisory (its energy rule needs `ATEC > 140`, and
`114 ≤ 140`); and whenever the raw SVF lies in `[0.3, 0.7]` and BCR does not
exceed 0.6, it emits no advisory at all, so the success message is shown. -/
theorem C1_amended_behavior :
    ∀ (d : InputData),
      Advisory.energyDensity ∉ suggestions (.num (327/10)) (.num 3) (.num 114) d ∧
      (∀ q : ℚ, d.SVF = .num q → 3/10 ≤ q → q ≤ 7/10 →
        d.BCR.gtb (.num (6/10)) = false →
        suggestions (.num (327/10)) (.num 3) (.num 114) d = []) := by
  intro d
  constructor
  · simp only [suggestions, List.mem_append, List.mem_singleton]
    norm_num [Val.gtb]
    exact ⟨⟨fun _ => by decide, fun _ => by decide⟩, fun _ => by decide⟩
  · intro q hq h1 h2 hBCR
    have hl : (Val.num q).ltb (.num (3/10)) = false := by
      simp [Val.ltb]; linarith
    have hg : (Val.num q).gtb (.num (7/10)) = false := by
      simp [Val.gtb]; linarith
    simp only [suggestions, hq, hl, hg, hBCR]
    norm_num [Val.gtb]

/-- C1 (witness): instantiating the amended statement at the default sidebar
parameters (SVF = 0.5 ∈ [0.3, 0.7], BCR = 0.4 ≤ 0.6). -/
theorem C1_amended_behavior_witness :
    Advisory.energyDensity ∉ suggestions (.num (327/10)) (.num 3) (.num 114) defaultInput ∧
      suggestions (.num (327/10)) (.num 3) (.num 114) defaultInput = [] :=
  ⟨(C1_amended_behavior defaultInput).1,
   (C1_amended_behavior defaultInput).2 (1/2) rfl (by norm_num) (by norm_num)
     (by norm_num [Val.gtb, defaultInput])⟩

/-- C2: whenever none of the four threshold predicates of the rule block
fires, `suggestions` is empty and the analysis section renders exactly the
single "balanced" success message; the rendering is never empty for any
advisory list; and in particular on the outcome triple `(30.0, 1.0, 100.0)`
no predicate fires for any raw parameters, so exactly the success message is
shown and zero advisories are produced. -/
theorem C2_no_fire_success :
    (∀ (u s a : Val) (d : InputData),
        (u.gtb (.num 30) && d.SVF.ltb (.num (3/10))) = false →
        (u.gtb (.num 30) && d.SVF.gtb (.num (7/10))) = false →
        (a.gtb (.num 140) && d.FAR.gtb (.num 4)) = false →
        (d.BCR.gtb (.num (6/10)) && s.gtb (.num 2)) = false →
        suggestions u s a d = [] ∧
          render_analysis (suggestions u s a d) = [.balancedInfo]) ∧
    (∀ (advs : List Advisory), render_analysis advs ≠ []) ∧
    (∀ d : InputData, suggestions (.num 30) (.num 1) (.num 100) d = [] ∧
        render_analysis (suggestions (.num 30) (.num 1) (.num 100) d) = [.balancedInfo]) := by
  refine ⟨fun u s a d h1 h2 h3 h4 => ?_, fun advs => ?_, fun d => ?_⟩
  · have he : suggestions u s a d = [] := by
      simp [suggestions, h1, h2, h3, h4]
    exact ⟨he, by simp [he, render_analysis]⟩
  · cases advs <;> simp [render_analysis]
  · have he : suggestions (.num 30) (.num 1) (.num 100) d = [] := by
      norm_num [suggestions, Val.gtb, Val.ltb]
    exact ⟨he, by simp [he, render_analysis]⟩

/-- C2 (witness): instantiating at `(30.0, 1.0, 100.0)` and the default
sidebar parameters, where none of the four predicates fires. -/
theorem C2_no_fire_success_witness :
    suggestions (.num 30) (.num 1) (.num 100) defaultInput = [] ∧
      render_analysis (suggestions (.num 30) (.num 1) (.num 100) defaultInput) =
        [.balancedInfo] :=
  C2_no_fire_success.1 (.num 30) (.num 1) (.num 100) defaultInput
    (by norm_num [Val.gtb, Val.ltb, defaultInput])
    (by norm_num [Val.gtb, defaultInput])
    (by norm_num [Val.gtb, defaultInput])
    (by norm_num [Val.gtb, defaultInput])

/-- A successful positional extraction pins the first three entries of
the prediction row. -/
theorem extractOutcomes_get {row : List Val} {u s a : Val}
    (h : extractOutcomes row = .ok (u, s, a)) :
    row.get? 0 = some u ∧ row.get? 1 = some s ∧ row.get? 2 = some a := by
  rcases row with _ | ⟨r0, row⟩
  · simp [extractOutcomes] at h
  rcases row with _ | ⟨r1, row⟩
  · simp [extractOutcomes] at h
  rcases row with _ | ⟨r2, rest⟩
  · simp [extractOutcomes] at h
  simp only [extractOutcomes, Except.ok.injEq, Prod.mk.injEq] at h
  obtain ⟨h0, h1, h2⟩ := h
  subst h0
  subst h1
  subst h2
  exact ⟨rfl, rfl, rfl⟩

/-- Any displayed element other than the `except` branch's `st.error`
comes from the rendering block of a run whose pipeline and extraction
both succeeded. -/
theorem mem_run_prediction_not_error {m : MLPModel} {sx sy : Scaler} {d : InputData}
    {el : Element} (h : el ∈ run_prediction m sx sy d)
    (hne : ∀ e, el ≠ .errorMsg e) :
    ∃ u s a row, predictPipeline m sx sy d.features = .ok row ∧
      extractOutcomes row = .ok (u, s, a) ∧ el ∈ (render_block u s a d).1 := by
  unfold run_prediction at h
  split at h
  · next e he =>
    simp at h
    exact absurd h (hne e)
  · next row hp =>
    split at h
    · next e he =>
      simp at h
      exact absurd h (hne e)
    · next u s a hx =>
      split at h
      · next els hreq =>
        exact ⟨u, s, a, row, hp, hx, by rw [hreq]; exact h⟩
      · next els e hreq =>
        rcases List.mem_append.mp h with h' | h'
        · exact ⟨u, s, a, row, hp, hx, by rw [hreq]; exact h'⟩
        · simp at h'
          exact absurd h' (hne e)

/-- The aveUTCI metric displayed by the rendering block carries exactly
the first extracted outcome. -/
theorem metricUTCI_eq_of_mem_render_block {u s a : Val} {d : InputData} {u' : Val}
    {st : StatusMsg} (h : Element.metricUTCI u' st ∈ (render_block u s a d).1) :
    u' = u := by
  unfold render_block at h
  dsimp only at h
  split_ifs at h <;> simp at h <;> exact h.1

/-- The stdUTCI metric displayed by the rendering block carries exactly
the second extracted outcome. -/
theorem metricStd_eq_of_mem_render_block {u s a : Val} {d : InputData} {s' : Val}
    (h : Element.metricStd s' ∈ (render_block u s a d).1) : s' = s := by
  unfold render_block at h
  dsimp only at h
  split_ifs at h <;> simp at h <;> exact h

/-- The ATEC metric displayed by the rendering block carries exactly
the third extracted outcome. -/
theorem metricATEC_eq_of_mem_render_block {u s a : Val} {d : InputData} {a' : Val}
    {em : EnergyMsg} (h : Element.metricATEC a' em ∈ (render_block u s a d).1) :
    a' = a := by
  unfold render_block at h
  dsimp only at h
  split_ifs at h <;> simp at h <;> exact h.1

/-- C3: the pipeline succeeds exactly when the input-scaler forward
transform, then the model prediction, then the output-scaler inverse
transform each succeed in that order, producing the final row; and the
displayed metrics of any run interpret that row positionally — the
aveUTCI metric shows index 0, the stdUTCI metric index 1 and the ATEC
metric index 2. -/
theorem C3_three_stage_positional :
    (∀ (m : MLPModel) (sx sy : Scaler) (x row : List Val),
        predictPipeline m sx sy x = .ok row ↔
          ∃ scaled pred, sx.transform x = .ok scaled ∧
            m.predict scaled = .ok pred ∧ sy.inverse_transform pred = .ok row) ∧
    (∀ (m : MLPModel) (sx sy : Scaler) (d : InputData) (u : Val) (st : StatusMsg),
        Element.metricUTCI u st ∈ run_prediction m sx sy d →
        ∃ row, predictPipeline m sx sy d.features = .ok row ∧ row.get? 0 = some u) ∧
    (∀ (m : MLPModel) (sx sy : Scaler) (d : InputData) (s : Val),
        Element.metricStd s ∈ run_prediction m sx sy d →
        ∃ row, predictPipeline m sx sy d.features = .ok row ∧ row.get? 1 = some s) ∧
    (∀ (m : MLPModel) (sx sy : Scaler) (d : InputData) (a : Val) (em : EnergyMsg),
        Element.metricATEC a em ∈ run_prediction m sx sy d →
        ∃ row, predictPipeline m sx sy d.features = .ok row ∧ row.get? 2 = some a) := by
  refine ⟨fun m sx sy x row => ?_, fun m sx sy d u st h => ?_, fun m sx sy d s h => ?_,
    fun m sx sy d a em h => ?_⟩
  · constructor
    · intro h
      unfold predictPipeline at h
      split at h
      · simp at h
      · next scaled h1 =>
        split at h
        · simp at h
        · next pred h2 =>
          split at h
          · simp at h
          · next orig h3 =>
            cases h
            exact ⟨scaled, pred, h1, h2, h3⟩
    · rintro ⟨scaled, pred, h1, h2, h3⟩
      unfold predictPipeline
      rw [h1]
      dsimp only
      rw [h2]
      dsimp only
      rw [h3]
  · obtain ⟨u0, s0, a0, row, hp, hx, hel⟩ :=
      mem_run_prediction_not_error h (fun e he => by cases he)
    cases metricUTCI_eq_of_mem_render_block hel
    exact ⟨row, hp, (extractOutcomes_get hx).1⟩
  · obtain ⟨u0, s0, a0, row, hp, hx, hel⟩ :=
      mem_run_prediction_not_error h (fun e he => by cases he)
    cases metricStd_eq_of_mem_render_block hel
    exact ⟨row, hp, (extractOutcomes_get hx).2.1⟩
  · obtain ⟨u0, s0, a0, row, hp, hx, hel⟩ :=
      mem_run_prediction_not_error h (fun e he => by cases he)
    cases metricATEC_eq_of_mem_render_block hel
    exact ⟨row, hp, (extractOutcomes_get hx).2.2⟩

/-- C3 (witness): a concrete run with identity-like scalers and the model
`m0` predicting `[31, 2, 120]` — the pipeline result is exactly forward
transform, then prediction, then inverse transform. -/
theorem C3_three_stage_positional_witness :
    predictPipeline m0 sx14 sy3 defaultInput.features =
      .ok [.num 31, .num 2, .num 120] :=
  (C3_three_stage_positional.1 m0 sx14 sy3 defaultInput.features
      [.num 31, .num 2, .num 120]).mpr
    ⟨[.num (5/2), .num (2/5), .num (3/10), .num (3/2), .num 30, .num 45, .num 10,
      .num (1/2), .num 1, .num 1, .num 1, .num 1000, .num (1/2), .num 10],
     [.num 31, .num 2, .num 120],
     by norm_num [Scaler.transform, Scaler.nFeatures, sx14, defaultInput,
       InputData.features, Val.sub, Val.div],
     by norm_num [MLPModel.predict, m0],
     by norm_num [Scaler.inverse_transform, Scaler.nFeatures, sy3, Val.mul, Val.add]⟩

/-- C4: with the artifact triple fixed, the pipeline and the whole handler
are deterministic — identical input parameter vectors yield identical
outputs (the embedding is a pure function of the model, scalers and input;
the frozen artifacts contain no randomness at inference time). -/
theorem C4_deterministic :
    ∀ (m : MLPModel) (sx sy : Scaler) (d1 d2 : InputData), d1 = d2 →
      run_prediction m sx sy d1 = run_prediction m sx sy d2 ∧
        predictPipeline m sx sy d1.features = predictPipeline m sx sy d2.features := by
  intro m sx sy d1 d2 h
  subst h
  exact ⟨rfl, rfl⟩

/-- C4 (witness): two runs on the default parameter vector with the
concrete artifacts agree. -/
theorem C4_deterministic_witness :
    run_prediction m0 sx14 sy3 defaultInput = run_prediction m0 sx14 sy3 defaultInput ∧
      predictPipeline m0 sx14 sy3 defaultInput.features =
        predictPipeline m0 sx14 sy3 defaultInput.features :=
  C4_deterministic m0 sx14 sy3 defaultInput defaultInput rfl

/-- C5: if every artifact lookup either succeeds or raises
`FileNotFoundError`, and at least one of the three files is absent, then
`load_toolkit` returns the all-`None` not-found sentinel; and for any
storage whatsoever a non-raising load is either fully populated
(all three `some`) or fully empty — never a partial triple. -/
theorem C5_missing_artifact_all_none :
    (∀ (α : Type) (fs : String → Except LoadExc α),
        (∀ n, (∃ v, fs n = .ok v) ∨ fs n = .error .fileNotFound) →
        (fs modelFile = .error .fileNotFound ∨ fs scalerXFile = .error .fileNotFound ∨
          fs scalerYFile = .error .fileNotFound) →
        load_toolkit fs = .ok (none, none, none)) ∧
    (∀ (α : Type) (fs : String → Except LoadExc α) (t : Option α × Option α × Option α),
        load_toolkit fs = .ok t →
        (∃ mv xv yv, t = (some mv, some xv, some yv)) ∨ t = (none, none, none)) := by
  constructor
  · intro α fs hok habs
    rcases hok modelFile with ⟨v, hv⟩ | hv
    · rcases hok scalerXFile with ⟨w, hw⟩ | hw
      · rcases hok scalerYFile with ⟨z, hz⟩ | hz
        · rcases habs with h | h | h
          · rw [hv] at h; cases h
          · rw [hw] at h; cases h
          · rw [hz] at h; cases h
        · unfold load_toolkit
          rw [hv]; dsimp only; rw [hw]; dsimp only; rw [hz]
      · unfold load_toolkit
        rw [hv]; dsimp only; rw [hw]
    · unfold load_toolkit
      rw [hv]
  · intro α fs t h
    unfold load_toolkit at h
    split at h
    · cases h; exact Or.inr rfl
    · cases h
    · split at h
      · cases h; exact Or.inr rfl
      · cases h
      · split at h
        · cases h; exact Or.inr rfl
        · cases h
        · cases h
          exact Or.inl ⟨_, _, _, rfl⟩

/-- C5 (witness): storage holding only the model file — the loader
returns the all-`None` sentinel, not a partial triple. -/
theorem C5_missing_artifact_all_none_witness :
    load_toolkit fsOnlyModel = .ok (none, none, none) :=
  C5_missing_artifact_all_none.1 ℕ fsOnlyModel
    (by
      intro n
      by_cases h : n = modelFile
      · exact Or.inl ⟨1, by simp [fsOnlyModel, h]⟩
      · exact Or.inr (by simp [fsOnlyModel, h]))
    (Or.inr (Or.inl (by simp only [fsOnlyModel]; rw [if_neg (by decide)])))

/-- The progress value of line 185 is clamped into `[0, 1]` by
`min(max(·, 0.0), 1.0)` for every finite input, so `st.progress`
accepts it. -/
theorem valid01_clamp (x : ℚ) :
    valid01 (Val.pymin (Val.pymax (.num x) (.num 0)) (.num 1)) = true := by
  unfold Val.pymax Val.pymin valid01
  by_cases h0 : x < 0
  · norm_num [Val.gtb, Val.ltb, Val.leb, h0]
  · by_cases h1 : 1 < x
    · norm_num [Val.gtb, Val.ltb, Val.leb, h0, h1]
    · norm_num [Val.gtb, Val.ltb, Val.leb, h0, h1]
      exact ⟨by linarith, by linarith⟩

/-- The progress values of lines 195 and 214 are only clamped from
above by `min(·, 1.0)`, so `st.progress` accepts them exactly when the
underlying quotient is nonnegative. -/
theorem valid01_min_one {x : ℚ} (hx : 0 ≤ x) :
    valid01 (Val.pymin (.num x) (.num 1)) = true := by
  unfold Val.pymin valid01
  by_cases h1 : 1 < x
  · norm_num [Val.ltb, Val.leb, h1]
  · norm_num [Val.ltb, Val.leb, h1]
    exact ⟨hx, by linarith⟩

/-- C6 (counterexample): with a model whose ATEC output is `+inf`, the
run completes normally — `min(inf / 300, 1.0)` clamps the progress
value to `1.0`, so no exception is raised anywhere: the Inf value is
silently rendered in the ATEC metric, no error is surfaced, and the
"balanced" success message is even shown.  This refutes both halves of
the claim (no internal prediction error occurs, and an Inf value is
rendered as a result). -/
theorem C6_counterexample :
    run_prediction infModel sx14 sy3 defaultInput =
      [.metricUTCI (.num 31) .comfortable, .progressBar (.num (11/20)),
       .metricStd (.num 2), .progressBar (.num (2/5)),
       .metricATEC .inf .highConsumption, .progressBar (.num 1),
       .analysis .balancedInfo] ∧
      containsError (run_prediction infModel sx14 sy3 defaultInput) = false := by
  have h : run_prediction infModel sx14 sy3 defaultInput =
      [.metricUTCI (.num 31) .comfortable, .progressBar (.num (11/20)),
       .metricStd (.num 2), .progressBar (.num (2/5)),
       .metricATEC .inf .highConsumption, .progressBar (.num 1),
       .analysis .balancedInfo] := by
    norm_num [run_prediction, predictPipeline, infModel, sx14, sy3, defaultInput,
      InputData.features, Scaler.transform, Scaler.inverse_transform, Scaler.nFeatures,
      MLPModel.predict, extractOutcomes, render_block, valid01, render_analysis,
      suggestions, Val.gtb, Val.ltb, Val.leb, Val.add, Val.mul, Val.sub, Val.div,
      Val.pymin, Val.pymax]
  refine ⟨h, ?_⟩
  rw [h]
  rfl

/-- C6 (amended): the code performs no NaN/Inf detection.  A NaN
aveUTCI outcome is first rendered in the `st.metric` widget and only
afterwards causes an error — its progress value stays NaN, fails
`st.progress`'s range check and raises `StreamlitAPIException`, which
the `except` catches — so an error is surfaced accidentally by the
presentation layer, not by NaN detection, and after a NaN result was
already displayed.  A `+inf` ATEC outcome raises nothing at all: its
progress value is clamped to `1.0`, the Inf metric is silently
rendered and the run completes without any error. -/
theorem C6_amended_no_detection :
    (∀ (m : MLPModel) (sx sy : Scaler) (d : InputData) (row : List Val) (s a : Val),
        predictPipeline m sx sy d.features = .ok row →
        extractOutcomes row = .ok (.nan, s, a) →
        run_prediction m sx sy d =
          [.metricUTCI .nan .comfortable, .errorMsg .streamlitAPIException]) ∧
    (∀ (m : MLPModel) (sx sy : Scaler) (d : InputData) (row : List Val) (qu qs : ℚ),
        predictPipeline m sx sy d.features = .ok row →
        extractOutcomes row = .ok (.num qu, .num qs, .inf) →
        0 ≤ qs →
        Element.metricATEC .inf .highConsumption ∈ run_prediction m sx sy d ∧
          containsError (run_prediction m sx sy d) = false) := by
  constructor
  · intro m sx sy d row s a hp hx
    have hr : render_block .nan s a d =
        ([.metricUTCI .nan .comfortable], some .streamlitAPIException) := by
      norm_num [render_block, valid01, Val.sub, Val.div, Val.pymax, Val.pymin,
        Val.gtb, Val.ltb, Val.leb]
    unfold run_prediction
    rw [hp]
    dsimp only
    rw [hx]
    dsimp only
    rw [hr]
    rfl
  · intro m sx sy d row qu qs hp hx hqs
    have e1 : ((Val.num qu).sub (.num 20)).div (.num 20) = Val.num ((qu - 20) / 20) := by
      norm_num [Val.sub, Val.div]
    have h1 : valid01 (Val.pymin
        (Val.pymax (((Val.num qu).sub (.num 20)).div (.num 20)) (.num 0)) (.num 1)) =
        true := by
      rw [e1]
      exact valid01_clamp _
    have e2 : (Val.num qs).div (.num 5) = Val.num (qs / 5) := by
      norm_num [Val.div]
    have h2 : valid01 (Val.pymin ((Val.num qs).div (.num 5)) (.num 1)) = true := by
      rw [e2]
      exact valid01_min_one (by positivity)
    have h3 : Val.pymin (Val.inf.div (.num 300)) (.num 1) = Val.num 1 := by
      norm_num [Val.div, Val.pymin, Val.ltb]
    have hv1 : valid01 (Val.num 1) = true := by
      norm_num [valid01, Val.leb]
    have he : Val.inf.gtb (Val.num 150) = true := rfl
    unfold run_prediction
    rw [hp]
    dsimp only
    rw [hx]
    dsimp only
    unfold render_block
    dsimp only
    rw [h3]
    simp only [h1, h2, hv1, he, eq_self_iff_true, if_true]
    constructor
    · simp
    · simp only [containsError, List.any_append, List.any_cons, List.any_nil,
        Bool.or_false, Bool.false_or]
      induction render_analysis (suggestions (.num qu) (.num qs) .inf d) with
      | nil => rfl
      | cons x xs ih => simp

/-- C6 (witness): instantiating the NaN half of the amended statement
at the concrete all-NaN model — the NaN aveUTCI metric is displayed
first and the run then ends in the caught progress-bar exception. -/
theorem C6_amended_no_detection_witness :
    run_prediction nanModel sx14 sy3 defaultInput =
      [.metricUTCI .nan .comfortable, .errorMsg .streamlitAPIException] :=
  C6_amended_no_detection.1 nanModel sx14 sy3 defaultInput [.nan, .nan, .nan] .nan .nan
    (by norm_num [predictPipeline, nanModel, sx14, sy3, defaultInput, InputData.features,
      Scaler.transform, Scaler.inverse_transform, Scaler.nFeatures, MLPModel.predict,
      Val.sub, Val.div, Val.mul, Val.add])
    (by norm_num [extractOutcomes])

/-- C7: a feature row whose length differs from the input scaler's fitted
width makes the pipeline fail with the width-mismatch `ValueError`
(carrying got/expected), identically for every model and output scaler —
prediction never proceeds and the row is never truncated or padded; and
the handler shows that error when the scaler's fitted width is not the
app's 14 features. -/
theorem C7_dimension_mismatch :
    (∀ (m : MLPModel) (sx sy : Scaler) (x : List Val),
        x.length ≠ sx.nFeatures →
        predictPipeline m sx sy x = .error (.valueError x.length sx.nFeatures) ∧
        ∀ (m' : MLPModel) (sy' : Scaler),
          predictPipeline m' sx sy' x = predictPipeline m sx sy x) ∧
    (∀ (m : MLPModel) (sx sy : Scaler) (d : InputData),
        sx.nFeatures ≠ 14 →
        run_prediction m sx sy d = [.errorMsg (.valueError 14 sx.nFeatures)]) := by
  constructor
  · intro m sx sy x hne
    have ht : sx.transform x = .error (.valueError x.length sx.nFeatures) := by
      unfold Scaler.transform
      rw [if_neg hne]
    refine ⟨?_, fun m' sy' => ?_⟩
    · unfold predictPipeline
      rw [ht]
    · unfold predictPipeline
      rw [ht]
  · intro m sx sy d hne
    have hlen : (d.features).length = 14 := rfl
    have ht : sx.transform d.features = .error (.valueError 14 sx.nFeatures) := by
      unfold Scaler.transform
      rw [hlen, if_neg (fun h => hne h.symm)]
    unfold run_prediction predictPipeline
    rw [ht]

/-- C7 (witness): a 13-entry row fed to the 14-feature scaler `sx14`
fails with the width-mismatch error. -/
theorem C7_dimension_mismatch_witness :
    predictPipeline m0 sx14 sy3 x13 = .error (.valueError x13.length sx14.nFeatures) :=
  (C7_dimension_mismatch.1 m0 sx14 sy3 x13
    (by norm_num [x13, sx14, Scaler.nFeatures])).1

/-- C8 (counterexample): after a first loader call that failed because all
files were absent, a second call — with storage now fully populated —
still returns the memoized `(None, None, None)` sentinel instead of
retrying the load (which would have produced the populated triple). -/
theorem C8_counterexample :
    (cached_load_toolkit ((cached_load_toolkit none fsMissing).2) fsPresent).1 =
        .ok (none, none, none) ∧
      load_toolkit fsPresent = .ok (some 7, some 7, some 7) := by
  constructor
  · simp [cached_load_toolkit, load_toolkit, fsMissing, fsPresent]
  · simp [load_toolkit, fsPresent]

/-- C8 (amended): `st.cache_resource` memoizes whatever `load_toolkit`
returns — including the `(None, None, None)` not-found sentinel, because
the `FileNotFoundError` is caught inside and the sentinel is returned
normally; once cached, every later invocation returns the cached value
without consulting storage, so the failure is permanently memoized for
the process. -/
theorem C8_amended_memoized :
    (∀ (α : Type) (r : Option α × Option α × Option α) (fs : String → Except LoadExc α),
        cached_load_toolkit (some r) fs = (.ok r, some r)) ∧
    (∀ (α : Type) (fs : String → Except LoadExc α) (r : Option α × Option α × Option α),
        load_toolkit fs = .ok r → cached_load_toolkit none fs = (.ok r, some r)) := by
  constructor
  · intro α r fs
    rfl
  · intro α fs r h
    simp [cached_load_toolkit, h]

/-- C8 (witness): the first call on all-absent storage returns and caches
the sentinel. -/
theorem C8_amended_memoized_witness :
    cached_load_toolkit (none : Option (Option ℕ × Option ℕ × Option ℕ)) fsMissing =
      (.ok (none, none, none), some (none, none, none)) :=
  C8_amended_memoized.2 ℕ fsMissing (none, none, none)
    (by simp [load_toolkit, fsMissing])

/-- C9: whenever the predicted aveUTCI is a number above 30 but the raw
SVF lies in the closed interval [0.3, 0.7], and the energy and coverage
predicates do not fire, the rule engine emits no advisory at all — in
particular no heat advisory — and renders only the single "balanced"
success message. -/
theorem C9_mid_svf_no_heat :
    ∀ (d : InputData) (u s a : Val) (qu qs : ℚ),
      u = .num qu → 30 < qu →
      d.SVF = .num qs → 3/10 ≤ qs → qs ≤ 7/10 →
      (a.gtb (.num 140) && d.FAR.gtb (.num 4)) = false →
      (d.BCR.gtb (.num (6/10)) && s.gtb (.num 2)) = false →
      suggestions u s a d = [] ∧
        render_analysis (suggestions u s a d) = [.balancedInfo] := by
  intro d u s a qu qs hu hqu hsvf h1 h2 h3 h4
  have hl : (Val.num qs).ltb (.num (3/10)) = false := by
    simp [Val.ltb]; linarith
  have hg : (Val.num qs).gtb (.num (7/10)) = false := by
    simp [Val.gtb]; linarith
  have he : suggestions u s a d = [] := by
    simp [suggestions, hu, hsvf, hl, hg, h3, h4]
  exact ⟨he, by simp [he, render_analysis]⟩

/-- C9 (witness): predicted aveUTCI 32 > 30 with the default raw
parameters (SVF = 0.5, ATEC predicate and coverage predicate off) gives
zero advisories and the success message. -/
theorem C9_mid_svf_no_heat_witness :
    suggestions (.num 32) (.num 1) (.num 100) defaultInput = [] ∧
      render_analysis (suggestions (.num 32) (.num 1) (.num 100) defaultInput) =
        [.balancedInfo] :=
  C9_mid_svf_no_heat defaultInput (.num 32) (.num 1) (.num 100) 32 (1/2)
    rfl (by norm_num) rfl (by norm_num) (by norm_num)
    (by norm_num [Val.gtb, defaultInput])
    (by norm_num [Val.gtb, defaultInput])

/-- C10: only `FileNotFoundError` is converted into the all-empty sentinel:
any other exception raised while loading an artifact propagates out of
`load_toolkit` unchanged (from whichever of the three sequential loads
raised it), and conversely the sentinel is produced only when one of the
three files was actually reported missing. -/
theorem C10_only_not_found_caught :
    ∀ (α : Type) (fs : String → Except LoadExc α) (msg : String),
      (fs modelFile = .error (.other msg) → load_toolkit fs = .error (.other msg)) ∧
      (∀ v, fs modelFile = .ok v → fs scalerXFile = .error (.other msg) →
          load_toolkit fs = .error (.other msg)) ∧
      (∀ v w, fs modelFile = .ok v → fs scalerXFile = .ok w →
          fs scalerYFile = .error (.other msg) → load_toolkit fs = .error (.other msg)) ∧
      (load_toolkit fs = .ok (none, none, none) →
          fs modelFile = .error .fileNotFound ∨ fs scalerXFile = .error .fileNotFound ∨
          fs scalerYFile = .error .fileNotFound) := by
  intro α fs msg
  refine ⟨fun h1 => ?_, fun v h1 h2 => ?_, fun v w h1 h2 h3 => ?_, fun h => ?_⟩
  · unfold load_toolkit
    rw [h1]
  · unfold load_toolkit
    rw [h1]; dsimp only; rw [h2]
  · unfold load_toolkit
    rw [h1]; dsimp only; rw [h2]; dsimp only; rw [h3]
  · unfold load_toolkit at h
    split at h
    · next he => exact Or.inl he
    · cases h
    · split at h
      · next he => exact Or.inr (Or.inl he)
      · cases h
      · split at h
        · next he => exact Or.inr (Or.inr he)
        · cases h
        · simp at h

/-- C10 (witness): a corrupt model blob (non-`FileNotFoundError`)
propagates out of the loader even though the scaler files are absent. -/
theorem C10_only_not_found_caught_witness :
    load_toolkit fsCorruptModel = .error (.other "corrupt") :=
  (C10_only_not_found_caught ℕ fsCorruptModel "corrupt").1
    (by norm_num [fsCorruptModel])
